import Mathlib

/-!
Verification of the github-star-gate plugin core (star verifier, verification
cache, retry helper, request coalescing) against its natural-language
specification.  Timestamps are modelled as natural numbers (milliseconds),
JavaScript strings as Lean strings (or lists of characters where the split
semantics matter), and nullable/optional values as `Option`.
-/

namespace StarGate

/-- `onApiFailure` configuration value: `"allow" | "deny"`. -/
inductive OnApiFailure where
  | allow
  | deny
  deriving Repr, DecidableEq

/-- `gracePeriod` configuration: `strategy` is kept as a raw string because the
source switches on it with a defensive `default:` branch, so unrecognized
values are representable; `duration` (seconds) is optional, default 3600. -/
structure GracePeriodConfig where
  strategy : String
  duration : Option Nat := none
  deriving Repr, DecidableEq

/-- The subset of `GitHubStarGateOptions` the decision logic reads:
`onApiFailure` (optional, documented default `"allow"`) and `gracePeriod`. -/
structure GitHubStarGateOptions where
  onApiFailure : Option OnApiFailure := none
  gracePeriod : Option GracePeriodConfig := none
  deriving Repr, DecidableEq

/-- `VerificationResult` returned by `verifyStarStatus`.  Absent optional
fields of the TS interface are `none` / `false`. -/
structure VerificationResult where
  hasStarred : Bool
  cached : Bool
  error : Option String := none
  requiresReauth : Bool := false
  deriving Repr, DecidableEq

/-- `AccessDecision` returned by `shouldGrantAccess`. -/
structure AccessDecision where
  granted : Bool
  reason : String
  gracePeriodActive : Bool
  deriving Repr, DecidableEq

/-- The argument record of `shouldGrantAccess`: observed star status plus the
persisted grant/grace-period timestamps (milliseconds, `none` = null/undefined;
a present JS `Date` is always truthy, so truthiness tests become `isSome`). -/
structure GrantInput where
  hasStarred : Bool
  accessGrantedAt : Option Nat := none
  gracePeriodEndsAt : Option Nat := none
  gracePeriodStartedAt : Option Nat := none
  deriving Repr, DecidableEq

/-- The `timed` branch fall-through of `shouldGrantAccess` (source lines
225-237): start a grace period if access was once granted and no grace-period
timestamp is set, otherwise deny. -/
def timedFallback (v : GrantInput) : AccessDecision :=
  if v.accessGrantedAt.isSome ∧ v.gracePeriodEndsAt = none ∧ v.gracePeriodStartedAt = none then
    ⟨true, "Grace period starting now", true⟩
  else
    ⟨false, "Grace period expired", false⟩

/-- The `case "timed"` branch of `shouldGrantAccess` (source lines 196-237),
evaluated at explicit time `now`. -/
def timedDecision (opts : GitHubStarGateOptions) (now : Nat) (v : GrantInput) : AccessDecision :=
  match v.gracePeriodStartedAt with
  | some startedAt =>
    let durationMs := ((opts.gracePeriod.bind GracePeriodConfig.duration).getD 3600) * 1000
    let endsAt := startedAt + durationMs
    if now < endsAt then
      ⟨true, "Grace period active until " ++ toString endsAt, true⟩
    else
      ⟨false, "Grace period expired", false⟩
  | none =>
    match v.gracePeriodEndsAt with
    | some endsAtTs =>
      if now < endsAtTs then
        ⟨true, "Grace period active until " ++ toString endsAtTs, true⟩
      else
        timedFallback v
    | none => timedFallback v

/-- `GitHubStarVerifier.shouldGrantAccess` (source lines 158-246), with the
implicit clock `new Date()` made an explicit parameter `now`. -/
def shouldGrantAccess (opts : GitHubStarGateOptions) (now : Nat) (v : GrantInput) : AccessDecision :=
  if v.hasStarred then
    ⟨true, "User has starred the repository", false⟩
  else
    let strategy := (opts.gracePeriod.map GracePeriodConfig.strategy).getD "immediate"
    if strategy = "immediate" then
      ⟨false, "Star removed, immediate revocation", false⟩
    else if strategy = "never" then
      match v.accessGrantedAt with
      | some _ => ⟨true, "Access previously granted, never revoke policy", true⟩
      | none => ⟨false, "Access was never granted", false⟩
    else if strategy = "timed" then
      timedDecision opts now v
    else
      ⟨false, "Unknown grace period strategy", false⟩

/-- `GitHubStarVerifier.calculateGracePeriodEnd` (source lines 248-257). -/
def calculateGracePeriodEnd (opts : GitHubStarGateOptions) (fromDate : Nat) : Option Nat :=
  let strategy := (opts.gracePeriod.map GracePeriodConfig.strategy).getD "immediate"
  if strategy = "timed" then
    let durationSeconds := (opts.gracePeriod.bind GracePeriodConfig.duration).getD 3600
    some (fromDate + durationSeconds * 1000)
  else
    none

/-- Output of one `_doVerifyStarStatus` run past the cache miss: the returned
`VerificationResult` and the cache write it performed (`some b` = wrote
`hasStarred := b` through the cache, `none` = no write). -/
structure DoVerifyOutput where
  result : VerificationResult
  cacheWrite : Option Bool
  deriving Repr, DecidableEq

/-- The `catch` handler of `_doVerifyStarStatus` (source lines 143-155):
apply the `onApiFailure` fallback, defaulting to `allow`. -/
def fallbackResult (opts : GitHubStarGateOptions) (msg : String) : DoVerifyOutput :=
  let onApiFailure := opts.onApiFailure.getD OnApiFailure.allow
  ⟨⟨onApiFailure == OnApiFailure.allow, false, some msg, false⟩, none⟩

/-- The status interpretation of `_doVerifyStarStatus` after a cache miss
(source lines 106-155): the argument is the settled outcome of
`fetchWithRetry` — `.ok status` for a received response, `.error msg` for a
thrown network failure.  The `else throw` branch (line 141) is caught by the
same method's `catch`, hence maps to `fallbackResult` with the thrown
message. -/
def interpretResponse (opts : GitHubStarGateOptions) (outcome : Except String Nat) :
    DoVerifyOutput :=
  match outcome with
  | .error msg => fallbackResult opts msg
  | .ok status =>
    if status = 204 then
      ⟨⟨true, false, none, false⟩, some true⟩
    else if status = 404 then
      ⟨⟨false, false, none, false⟩, some false⟩
    else if status = 401 then
      ⟨⟨false, false, some "GitHub authentication failed. Token may be expired.", true⟩, none⟩
    else if status = 403 then
      ⟨⟨opts.onApiFailure == some OnApiFailure.allow, false,
        some "GitHub API rate limit or permission issue (status: 403)", false⟩, none⟩
    else
      fallbackResult opts ("Unexpected GitHub API response: " ++ toString status)

/-- The persisted `StarVerification` record (cache entry for one
(user, repository) pair). -/
structure StarVerification where
  id : String
  userId : String
  repository : String
  hasStarred : Bool
  lastCheckedAt : Nat
  expiresAt : Nat
  createdAt : Nat
  accessGrantedAt : Option Nat
  accessRevokedAt : Option Nat
  gracePeriodEndsAt : Option Nat
  gracePeriodStartedAt : Option Nat := none
  deriving Repr, DecidableEq

/-- JavaScript `a || b` specialised to nullable timestamps: a present `Date`
is always truthy, `null`/`undefined` are falsy. -/
def jsOr (a b : Option Nat) : Option Nat :=
  match a with
  | some x => some x
  | none => b

/-- `StarVerificationCache.get` (cache source lines 9-28).  The adapter lookup
for the unique (userId, repository) record is made explicit as the `record`
argument; the clock is the explicit `now`. -/
def cacheGet (now : Nat) (record : Option StarVerification) : Option StarVerification :=
  match record with
  | none => none
  | some v => if v.expiresAt < now then none else some v

/-- `StarVerificationCache.set` (cache source lines 30-81), returning the
record it stores.  `existing` is the adapter's prior record for the pair,
`newId` the fresh id `crypto.randomUUID()` would produce, `now` the clock. -/
def cacheSet (cacheDurationMinutes now : Nat) (newId userId repository : String)
    (hasStarred : Bool) (existingAccessGrantedAt : Option Nat)
    (existing : Option StarVerification) : StarVerification :=
  let expiresAt := now + cacheDurationMinutes * 60 * 1000
  let accessGrantedAt :=
    if hasStarred then
      jsOr existingAccessGrantedAt (jsOr (existing.bind StarVerification.accessGrantedAt) (some now))
    else
      jsOr (existing.bind StarVerification.accessGrantedAt) none
  match existing with
  | some ex =>
      { ex with
        hasStarred := hasStarred
        lastCheckedAt := now
        expiresAt := expiresAt
        accessGrantedAt := accessGrantedAt }
  | none =>
      { id := newId
        userId := userId
        repository := repository
        hasStarred := hasStarred
        lastCheckedAt := now
        expiresAt := expiresAt
        createdAt := now
        accessGrantedAt := if hasStarred then some now else none
        accessRevokedAt := none
        gracePeriodEndsAt := none }

/-- JavaScript `s.split("/")` on a string viewed as a list of characters:
always returns at least one (possibly empty) segment. -/
def splitSlash : List Char → List (List Char)
  | [] => [[]]
  | c :: cs =>
    if c = '/' then
      [] :: splitSlash cs
    else
      match splitSlash cs with
      | [] => [[c]]
      | r :: rs => (c :: r) :: rs

/-- The two segments destructured by
`const [owner, repo] = options.repository.split("/")`. -/
structure RepoParts where
  owner : List Char
  repo : List Char
  deriving Repr, DecidableEq

/-- The string-repository branch of the `GitHubStarVerifier` constructor
(source lines 18-25): take the first two split segments (`[]` models both an
absent and an empty segment, which JS treats alike via falsiness) and throw
on a falsy owner or repo. -/
def parseRepository (s : List Char) : Except (List Char) RepoParts :=
  let parts := splitSlash s
  let owner := (parts.get? 0).getD []
  let repo := (parts.get? 1).getD []
  if owner = [] ∨ repo = [] then
    Except.error (("Invalid repository format: ").toList ++ s ++
      (". Expected \x22owner/repo\x22").toList)
  else
    Except.ok ⟨owner, repo⟩

/-- `this.repoKey` (source line 29): the canonical key rebuilt from the
parsed parts. -/
def repoKey (p : RepoParts) : List Char := p.owner ++ '/' :: p.repo

/-- One attempt of the remote fetch, as observed by `fetchWithRetry`: either
a response with a status code, or a thrown network error. -/
inductive AttemptOutcome where
  | resp (status : Nat)
  | err (msg : String)
  deriving Repr, DecidableEq

/-- The short-circuit test of `fetchWithRetry` (source line 43):
`response.status < 500 && response.status !== 429`. -/
def quickReturn (status : Nat) : Bool := status < 500 && status != 429

/-- The retry loop of `fetchWithRetry` (source lines 39-64).  `outcomes n` is
what the nth `fetch` call does; the result pairs the settled outcome of the
helper (returned response status, or the propagated thrown error) with the
list of backoff delays slept, in milliseconds.  The fuel counts the remaining
loop iterations (initially `maxRetries`), so `fuel = 0` inside the loop body
marks the final attempt (`attempt = maxRetries - 1`), and the outer `fuel = 0`
case is the fall-through `throw lastError || "Max retries exceeded"`. -/
def fetchLoop (outcomes : Nat → AttemptOutcome) (attempt : Nat) (lastError : Option String) :
    Nat → Except String Nat × List Nat
  | 0 => (Except.error (lastError.getD "Max retries exceeded"), [])
  | fuel + 1 =>
    match outcomes attempt with
    | .resp s =>
      if quickReturn s then
        (Except.ok s, [])
      else if fuel = 0 then
        (Except.ok s, [])
      else
        let next := fetchLoop outcomes (attempt + 1) lastError fuel
        (next.1, 2 ^ attempt * 1000 :: next.2)
    | .err m =>
      if fuel = 0 then
        (Except.error m, [])
      else
        let next := fetchLoop outcomes (attempt + 1) (some m) fuel
        (next.1, 2 ^ attempt * 1000 :: next.2)

/-- `GitHubStarVerifier.fetchWithRetry` (source lines 32-65); the source
always calls it with the default `maxRetries = 3`. -/
def fetchWithRetry (outcomes : Nat → AttemptOutcome) (maxRetries : Nat) :
    Except String Nat × List Nat :=
  fetchLoop outcomes 0 none maxRetries

/-- Final-attempt handling of the three-attempt retry helper: the last
response is returned as-is, the last thrown error propagates. -/
def retrySpec3Last (a2 : AttemptOutcome) : Except String Nat :=
  match a2 with
  | .resp s2 => Except.ok s2
  | .err m2 => Except.error m2

/-- Attempts 2 and 3 of the three-attempt behaviour, with the backoff slept
so far being the 1s delay after attempt 1. -/
def retrySpec3Tail (a1 a2 : AttemptOutcome) : Except String Nat × List Nat :=
  match a1 with
  | .resp s1 =>
    if quickReturn s1 then (Except.ok s1, [1000])
    else (retrySpec3Last a2, [1000, 2000])
  | .err _ => (retrySpec3Last a2, [1000, 2000])

/-- The amended-claim description of the three-attempt retry helper: a status
below 500 and not 429 returns immediately with no delay; otherwise a 1s delay
precedes the second attempt and a 2s delay the third; the final attempt is
never followed by a delay — its response is returned as-is and its thrown
error propagates. -/
def retrySpec3 (a0 a1 a2 : AttemptOutcome) : Except String Nat × List Nat :=
  match a0 with
  | .resp s0 =>
    if quickReturn s0 then (Except.ok s0, []) else retrySpec3Tail a1 a2
  | .err _ => retrySpec3Tail a1 a2

/-- State of the request-coalescing machinery of `verifyStarStatus` (source
lines 71-91) for one coalescing key: whether a verification promise is in
flight (`pending`, holding an id), how many underlying `_doVerifyStarStatus`
operations were started (`apiCalls`), which callers await the in-flight
promise (`subscribers`), and which callers already received which result
(`delivered`). -/
structure CoalesceState where
  pending : Option Nat
  apiCalls : Nat
  subscribers : List Nat
  delivered : List (Nat × VerificationResult)
  deriving Repr, DecidableEq

/-- The verifier starts with no in-flight entry. -/
def initialCoalesceState : CoalesceState := ⟨none, 0, [], []⟩

/-- Events of the coalescing state machine: a caller invokes
`verifyStarStatus` (`arrive`), or the in-flight operation settles (`settle`,
fulfilment and rejection alike — the source's `finally` runs in both). -/
inductive CoalesceEvent where
  | arrive (caller : Nat)
  | settle (result : VerificationResult)
  deriving Repr, DecidableEq

/-- One step of the coalescing state machine.  The source's lookup /
start-operation / insert sequence (lines 77-84) contains no `await`, so on
the single-threaded event loop it is atomic and is modelled as one step: an
arriving caller joins the in-flight promise if one is pending, otherwise
starts exactly one new underlying operation and registers it; on settlement
the `finally` removes the entry and every subscriber receives the one settled
result. -/
def coalesceStep (st : CoalesceState) (e : CoalesceEvent) : CoalesceState :=
  match e with
  | .arrive c =>
    match st.pending with
    | some _ => { st with subscribers := st.subscribers ++ [c] }
    | none =>
      { st with
        pending := some st.apiCalls
        apiCalls := st.apiCalls + 1
        subscribers := st.subscribers ++ [c] }
  | .settle r =>
    { st with
      pending := none
      subscribers := []
      delivered := st.delivered ++ st.subscribers.map (fun c => (c, r)) }

/-- Run the coalescing machine over a sequence of events from the initial
state. -/
def coalesceRun (events : List CoalesceEvent) : CoalesceState :=
  events.foldl coalesceStep initialCoalesceState

/-- Whether the constructor throws for a given repository string: true on
the `Invalid repository format` error, false when construction succeeds. -/
def parseFails (s : List Char) : Bool :=
  match parseRepository s with
  | Except.error _ => true
  | Except.ok _ => false

/-- A prior record used to instantiate the C5 witness: its grant timestamp
is 42. -/
def sampleRecord : StarVerification :=
  ⟨"id0", "u", "o/r", false, 0, 99999, 0, some 42, none, none, none⟩

/-- A record whose cache validity expires exactly at time 1000, used for the
C7 boundary counterexample and witness. -/
def boundaryRecord : StarVerification :=
  ⟨"id1", "u", "o/r", true, 0, 1000, 0, some 0, none, none, none⟩

/-- A `timed` grace-period configuration with the default duration, for the
C2 witness. -/
def optsTimed : GitHubStarGateOptions := ⟨none, some ⟨"timed", none⟩⟩

/-! ## Theorems -/

/-- C1 (failing-input evaluation): with `onApiFailure` unset — where the
option's documented default is `"allow"` — a 403 response makes
`_doVerifyStarStatus` return `hasStarred := false` (the strict
`=== "allow"` comparison on line 135 never applies the default), not the
`hasStarred := true` the claim states; the 403-mentioning error, `cached :=
false` and the absence of a cache write are as claimed. -/
theorem c1_unset_options_403_eval :
    interpretResponse { onApiFailure := none, gracePeriod := none } (Except.ok 403) =
      ⟨⟨false, false, some "GitHub API rate limit or permission issue (status: 403)", false⟩,
        none⟩ := by
  decide

/-- C6: for every configuration, a 401 response yields `hasStarred := false`,
`cached := false`, `requiresReauth := true` with the authentication-failure
message, and no cache write — the `onApiFailure` fallback is never consulted
on 401. -/
theorem c6_unauthorized_never_falls_back (opts : GitHubStarGateOptions) :
    interpretResponse opts (Except.ok 401) =
      ⟨⟨false, false, some "GitHub authentication failed. Token may be expired.", true⟩,
        none⟩ := rfl

/-- C3: a thrown network failure, and an unexpected status (outside
{204, 404, 401, 403}) surviving the retries, are both converted into a
returned `VerificationResult` with `hasStarred` given by the `onApiFailure`
fallback (default `allow` when unset), `cached := false` and the failure
message; no exception escapes, and no cache write happens. -/
theorem c3_transport_failure_returns_result (opts : GitHubStarGateOptions) (msg : String)
    (s : Nat) (h204 : s ≠ 204) (h404 : s ≠ 404) (h401 : s ≠ 401) (h403 : s ≠ 403) :
    interpretResponse opts (Except.error msg) =
      ⟨⟨opts.onApiFailure.getD OnApiFailure.allow == OnApiFailure.allow, false,
        some msg, false⟩, none⟩ ∧
    interpretResponse opts (Except.ok s) =
      ⟨⟨opts.onApiFailure.getD OnApiFailure.allow == OnApiFailure.allow, false,
        some ("Unexpected GitHub API response: " ++ toString s), false⟩, none⟩ := by
  constructor
  · rfl
  · simp [interpretResponse, fallbackResult, h204, h404, h401, h403]

/-- C3 witness: default configuration, a final network error and a persistent
500 both resolve to `hasStarred := true` with the failure message. -/
theorem c3_transport_failure_witness :
    interpretResponse ⟨none, none⟩ (Except.error "network down") =
      ⟨⟨true, false, some "network down", false⟩, none⟩ ∧
    interpretResponse ⟨none, none⟩ (Except.ok 500) =
      ⟨⟨true, false, some ("Unexpected GitHub API response: " ++ toString 500), false⟩,
        none⟩ :=
  c3_transport_failure_returns_result ⟨none, none⟩ "network down" 500
    (by decide) (by decide) (by decide) (by decide)

/-- C10: whatever the configured strategy (including an unrecognized string,
or no grace-period configuration at all), a non-starred user with no prior
`accessGrantedAt` and no grace-period timestamps is never granted access. -/
theorem c10_never_grants_without_history (opts : GitHubStarGateOptions) (now : Nat) :
    (shouldGrantAccess opts now ⟨false, none, none, none⟩).granted = false := by
  rcases opts with ⟨oaf, gp⟩
  rcases gp with _ | gpc
  · simp [shouldGrantAccess]
  · simp only [shouldGrantAccess]
    by_cases h1 : gpc.strategy = "immediate" <;>
      by_cases h2 : gpc.strategy = "never" <;>
        by_cases h3 : gpc.strategy = "timed" <;>
          simp [h1, h2, h3, timedDecision, timedFallback]

/-- C5 (counterexample): creating a fresh record (`existing = none`) with
`hasStarred = true` and an explicitly supplied override `some 1000` stores
`accessGrantedAt = now` (here 5000), not the override — the create branch of
`set` ignores `existingAccessGrantedAt`, contradicting the claim that the
override wins in both the create and the update case. -/
theorem c5_create_ignores_override :
    (cacheSet 15 5000 "newid" "user" "owner/repo" true (some 1000) none).accessGrantedAt =
      some 5000 ∧ (some 5000 : Option Nat) ≠ some 1000 := by
  decide

/-- C5 (amended): when a prior record exists, `accessGrantedAt` after
`set(.., true, override)` is the override if given, else the prior record's
value, else `now`, and after `set(.., false, _)` it is carried over unchanged;
when no record exists, the create branch stores `now` if `hasStarred` is true
(ignoring any override) and `null` otherwise. -/
theorem c5_amended_grant_date_rule (cd now : Nat) (nid u r : String) (ov : Option Nat)
    (ex : Option StarVerification) :
    (∀ exv, ex = some exv →
      (cacheSet cd now nid u r true ov ex).accessGrantedAt =
        jsOr ov (jsOr exv.accessGrantedAt (some now)) ∧
      (cacheSet cd now nid u r false ov ex).accessGrantedAt = exv.accessGrantedAt) ∧
    (ex = none →
      (cacheSet cd now nid u r true ov ex).accessGrantedAt = some now ∧
      (cacheSet cd now nid u r false ov ex).accessGrantedAt = none) := by
  constructor
  · rintro exv rfl
    refine ⟨by simp [cacheSet], ?_⟩
    rcases h : exv.accessGrantedAt with _ | a <;> simp [cacheSet, jsOr, h]
  · rintro rfl
    exact ⟨by simp [cacheSet], by simp [cacheSet]⟩

/-- C5 witness: with a prior record granting at 42, starring with override
111 stores 111, and un-starring preserves 42. -/
theorem c5_amended_witness :
    (cacheSet 15 9000 "nid" "u" "o/r" true (some 111) (some sampleRecord)).accessGrantedAt =
      some 111 ∧
    (cacheSet 15 9000 "nid" "u" "o/r" false (some 111) (some sampleRecord)).accessGrantedAt =
      some 42 :=
  (c5_amended_grant_date_rule 15 9000 "nid" "u" "o/r" (some 111) (some sampleRecord)).1
    sampleRecord rfl

/-- C7 (counterexample): at `now = expiresAt` (both 1000) the record is still
returned by `get`, although `now < expiresAt` fails — so "cache-valid only
while now < expiresAt" does not hold at the boundary instant; the code hides
a record only once `expiresAt < now`. -/
theorem c7_boundary_instant_still_valid :
    cacheGet 1000 (some boundaryRecord) = some boundaryRecord ∧
    ¬ (1000 < boundaryRecord.expiresAt) := by
  decide

/-- C7 (amended): `get` returns null exactly when no record exists or
`expiresAt < now` (strictly passed); a stored record is cache-valid while
`now ≤ expiresAt`, so a strictly expired record is invisible to readers even
though still physically stored until swept. -/
theorem c7_amended_get_visibility (now : Nat) (record : Option StarVerification) :
    (record = none → cacheGet now record = none) ∧
    (∀ v, record = some v → (cacheGet now record = none ↔ v.expiresAt < now)) ∧
    (∀ v, record = some v → (cacheGet now record = some v ↔ now ≤ v.expiresAt)) := by
  refine ⟨?_, ?_, ?_⟩
  · rintro rfl; rfl
  · rintro v rfl
    by_cases h : v.expiresAt < now <;> simp [cacheGet, h]
  · rintro v rfl
    by_cases h : v.expiresAt < now
    · simp [cacheGet, h]
    · simp [cacheGet, h]
      omega

/-- C7 witness: the boundary record at time 2000 is strictly expired and
invisible. -/
theorem c7_amended_witness :
    cacheGet 2000 (some boundaryRecord) = none ↔ boundaryRecord.expiresAt < 2000 :=
  ((c7_amended_get_visibility 2000 (some boundaryRecord)).2.1) boundaryRecord rfl

/-- C2: under the `timed` strategy with `hasStarred = false`, the decision
follows the claimed precedence: (1) a set `gracePeriodStartedAt` grants with
an active grace period exactly while `now < startedAt + duration` (duration
default 3600 s, in ms) and otherwise denies with "Grace period expired";
(2) else a set, unexpired `gracePeriodEndsAt` grants with an active grace
period; (3) else a prior `accessGrantedAt` with neither grace-period
timestamp set grants with "Grace period starting now"; (4) an expired
`gracePeriodEndsAt`, or (5) no timestamps at all, deny with "Grace period
expired". -/
theorem c2_timed_strategy_precedence (gp : GracePeriodConfig)
    (opts : GitHubStarGateOptions) (now : Nat) (v : GrantInput)
    (hgp : opts.gracePeriod = some gp) (hstrat : gp.strategy = "timed")
    (hns : v.hasStarred = false) :
    (∀ t, v.gracePeriodStartedAt = some t →
      shouldGrantAccess opts now v =
        (if now < t + (gp.duration.getD 3600) * 1000 then
          ⟨true, "Grace period active until " ++ toString (t + (gp.duration.getD 3600) * 1000),
            true⟩
        else ⟨false, "Grace period expired", false⟩)) ∧
    (∀ e, v.gracePeriodStartedAt = none → v.gracePeriodEndsAt = some e → now < e →
      shouldGrantAccess opts now v =
        ⟨true, "Grace period active until " ++ toString e, true⟩) ∧
    (∀ a, v.gracePeriodStartedAt = none → v.gracePeriodEndsAt = none →
      v.accessGrantedAt = some a →
      shouldGrantAccess opts now v = ⟨true, "Grace period starting now", true⟩) ∧
    (∀ e, v.gracePeriodStartedAt = none → v.gracePeriodEndsAt = some e → e ≤ now →
      shouldGrantAccess opts now v = ⟨false, "Grace period expired", false⟩) ∧
    (v.gracePeriodStartedAt = none → v.gracePeriodEndsAt = none →
      v.accessGrantedAt = none →
      shouldGrantAccess opts now v = ⟨false, "Grace period expired", false⟩) := by
  have hsga : shouldGrantAccess opts now v = timedDecision opts now v := by
    simp [shouldGrantAccess, hns, hgp, hstrat]
  refine ⟨?_, ?_, ?_, ?_, ?_⟩
  · intro t hst
    rw [hsga]
    simp [timedDecision, hst, hgp]
  · intro e hst hen hlt
    rw [hsga]
    simp [timedDecision, hst, hen, hlt]
  · intro a hst hen hag
    rw [hsga]
    simp [timedDecision, timedFallback, hst, hen, hag]
  · intro e hst hen hge
    rw [hsga]
    simp [timedDecision, timedFallback, hst, hen, Nat.not_lt.mpr hge]
  · intro hst hen hag
    rw [hsga]
    simp [timedDecision, timedFallback, hst, hen, hag]

/-- C2 witness: first detected un-star (prior grant at 500, no grace-period
timestamps) grants with "Grace period starting now". -/
theorem c2_timed_witness :
    shouldGrantAccess optsTimed 1000 ⟨false, some 500, none, none⟩ =
      ⟨true, "Grace period starting now", true⟩ :=
  ((c2_timed_strategy_precedence ⟨"timed", none⟩ optsTimed 1000
    ⟨false, some 500, none, none⟩ rfl rfl rfl).2.2.1) 500 rfl rfl rfl

/-- `splitSlash` always produces at least one segment, like JS `split`. -/
theorem splitSlash_ne_nil (l : List Char) : splitSlash l ≠ [] := by
  induction l with
  | nil => simp [splitSlash]
  | cons c cs ih =>
    by_cases h : c = '/'
    · simp [splitSlash, h]
    · rcases hs : splitSlash cs with _ | ⟨r, rs⟩
      · exact absurd hs ih
      · simp [splitSlash, h, hs]

/-- A string with a single split segment is that segment (it contains no
slash). -/
theorem splitSlash_singleton (l x : List Char) (h : splitSlash l = [x]) : l = x := by
  induction l generalizing x with
  | nil =>
    simp [splitSlash] at h
    exact h.symm ▸ rfl
  | cons c cs ih =>
    by_cases hc : c = '/'
    · simp [splitSlash, hc] at h
      exact absurd h.2 (splitSlash_ne_nil cs)
    · rcases hs : splitSlash cs with _ | ⟨r, rs⟩
      · exact absurd hs (splitSlash_ne_nil cs)
      · simp [splitSlash, hc, hs] at h
        exact h.1 ▸ congrArg (List.cons c) (ih r (by rw [hs, h.2]))

/-- A string with exactly two split segments is their rejoining around one
slash. -/
theorem splitSlash_pair (l o r : List Char) (h : splitSlash l = [o, r]) :
    l = o ++ '/' :: r := by
  induction l generalizing o with
  | nil => simp [splitSlash] at h
  | cons c cs ih =>
    by_cases hc : c = '/'
    · simp [splitSlash, hc] at h
      subst hc
      rcases h with ⟨ho, hr⟩
      subst ho
      simpa using splitSlash_singleton cs r hr
    · rcases hs : splitSlash cs with _ | ⟨r0, rs0⟩
      · exact absurd hs (splitSlash_ne_nil cs)
      · simp [splitSlash, hc, hs] at h
        rcases h with ⟨ho, hrs⟩
        have hcs : cs = r0 ++ '/' :: r := ih r0 (by rw [hs, hrs])
        subst ho
        rw [hcs]
        simp

/-- C4 (counterexample): `"a/b/c"` does not split into exactly two non-empty
segments, yet construction succeeds — the destructuring keeps only the first
two segments — and the canonical key `"a/b"` differs from the input, refuting
both halves of the claim at this input. -/
theorem c4_extra_segments_accepted :
    parseFails ("a/b/c".toList) = false ∧
    (splitSlash ("a/b/c".toList)).length ≠ 2 ∧
    parseRepository ("a/b/c".toList) = Except.ok ⟨"a".toList, "b".toList⟩ ∧
    repoKey ⟨"a".toList, "b".toList⟩ ≠ "a/b/c".toList :=
  ⟨by decide, by decide, rfl, by decide⟩

/-- C4 (amended): construction throws, naming the offending input, exactly
when the first split segment is empty or the second is absent or empty
(segments past the second are silently dropped); and for every string that
splits into exactly two non-empty segments the canonical repository key
equals the input unchanged. -/
theorem c4_amended_constructor_validation (s : List Char) :
    (parseFails s = true ↔
      (splitSlash s)[0]?.getD [] = [] ∨ (splitSlash s)[1]?.getD [] = []) ∧
    (∀ o r, splitSlash s = [o, r] → o ≠ [] → r ≠ [] →
      parseRepository s = Except.ok ⟨o, r⟩ ∧ repoKey ⟨o, r⟩ = s) := by
  constructor
  · simp only [parseFails, parseRepository, List.get?_eq_getElem?]
    by_cases h : (splitSlash s)[0]?.getD [] = [] ∨ (splitSlash s)[1]?.getD [] = []
    · rw [if_pos h]
      simp [h]
    · rw [if_neg h]
      simp [h]
  · intro o r hsplit ho hr
    have hkey : o ++ '/' :: r = s := (splitSlash_pair s o r hsplit).symm
    constructor
    · simp [parseRepository, hsplit, ho, hr]
    · simpa [repoKey] using hkey

/-- C4 witness: the valid string `"ab/cd"` parses and reproduces itself as
the canonical key. -/
theorem c4_amended_witness :
    parseRepository ("ab/cd".toList) = Except.ok ⟨"ab".toList, "cd".toList⟩ ∧
    repoKey ⟨"ab".toList, "cd".toList⟩ = "ab/cd".toList :=
  (c4_amended_constructor_validation ("ab/cd".toList)).2 ("ab".toList) ("cd".toList)
    (by decide) (by decide) (by decide)

/-- C8 (counterexample): with every attempt answering 500, the three-attempt
helper sleeps exactly [1000 ms, 2000 ms] — 3 seconds of total backoff — not
the 1+2+4 seconds the claim states: no delay follows the final attempt, so
the 4-second delay of `2^2` never occurs. -/
theorem c8_backoff_is_3s_not_7s :
    (fetchWithRetry (fun _ => AttemptOutcome.resp 500) 3).2 = [1000, 2000] ∧
    (fetchWithRetry (fun _ => AttemptOutcome.resp 500) 3).2.sum = 3000 ∧
    (3000 : Nat) ≠ 1000 + 2000 + 4000 := by
  decide

/-- Total backoff of the three-attempt behaviour never exceeds 3 seconds. -/
theorem retrySpec3_sum_le (a0 a1 a2 : AttemptOutcome) :
    (retrySpec3 a0 a1 a2).2.sum ≤ 3000 := by
  rcases a0 with s0 | m0 <;> rcases a1 with s1 | m1 <;>
    simp only [retrySpec3, retrySpec3Tail, retrySpec3Last] <;> (try split_ifs) <;> simp

/-- C8 (amended): the helper makes up to 3 attempts; a response with status
below 500 and not 429 is returned immediately with no retry; a retryable
status or thrown error is followed by a `2^attempt`-second delay before the
next attempt — 1 s after attempt 0 and 2 s after attempt 1 only; after the
final attempt the last response is returned as-is and a final thrown error
propagates (`retrySpec3` spells out exactly this behaviour), so the worst
case enforces 1+2 = 3 seconds of backoff across three attempts. -/
theorem c8_amended_retry_model (o : Nat → AttemptOutcome) :
    fetchWithRetry o 3 = retrySpec3 (o 0) (o 1) (o 2) ∧
    (fetchWithRetry o 3).2.sum ≤ 3000 := by
  have h : fetchWithRetry o 3 = retrySpec3 (o 0) (o 1) (o 2) := by
    rcases h0 : o 0 with s0 | m0 <;> rcases h1 : o 1 with s1 | m1 <;>
      rcases h2 : o 2 with s2 | m2 <;>
      simp only [fetchWithRetry, fetchLoop, h0, h1, h2, retrySpec3, retrySpec3Tail,
        retrySpec3Last] <;>
      split_ifs <;> simp_all
  exact ⟨h, h ▸ retrySpec3_sum_le (o 0) (o 1) (o 2)⟩

/-- The coalescing map keeps an in-flight promise pending across further
arrivals: they only subscribe; no new underlying operation starts. -/
theorem coalesce_arrivals_join_pending (rest : List Nat) (st : CoalesceState) (x : Nat)
    (hp : st.pending = some x) :
    (rest.map CoalesceEvent.arrive).foldl coalesceStep st =
      { st with subscribers := st.subscribers ++ rest } := by
  induction rest generalizing st with
  | nil => simp
  | cons c cs ih =>
    simp only [List.map_cons, List.foldl_cons]
    rw [show coalesceStep st (CoalesceEvent.arrive c) =
      { st with subscribers := st.subscribers ++ [c] } by simp [coalesceStep, hp]]
    rw [ih _ (by simp [hp])]
    simp

/-- C9: when N ≥ 1 callers arrive for the same coalescing key before the
operation settles, exactly one underlying API operation is started, every
caller receives the identical settled result, and the in-flight entry is
removed once the operation settles, whatever the result. -/
theorem c9_coalescing_single_api_call (callers : List Nat) (r : VerificationResult)
    (h : callers ≠ []) :
    (coalesceRun (callers.map CoalesceEvent.arrive ++ [CoalesceEvent.settle r])).apiCalls = 1 ∧
    (coalesceRun (callers.map CoalesceEvent.arrive ++ [CoalesceEvent.settle r])).delivered =
      callers.map (fun c => (c, r)) ∧
    (coalesceRun (callers.map CoalesceEvent.arrive ++ [CoalesceEvent.settle r])).pending =
      none := by
  rcases callers with _ | ⟨c, cs⟩
  · exact absurd rfl h
  · unfold coalesceRun
    simp only [List.map_cons, List.foldl_append, List.foldl_cons, List.foldl_nil]
    rw [show coalesceStep initialCoalesceState (CoalesceEvent.arrive c) =
      ⟨some 0, 1, [c], []⟩ from rfl]
    rw [coalesce_arrivals_join_pending cs ⟨some 0, 1, [c], []⟩ 0 rfl]
    simp [coalesceStep]

/-- C9 witness: three simultaneous callers, one API call, identical results,
entry cleared. -/
theorem c9_coalescing_witness :
    (coalesceRun ([7, 8, 9].map CoalesceEvent.arrive ++
      [CoalesceEvent.settle ⟨true, false, none, false⟩])).apiCalls = 1 ∧
    (coalesceRun ([7, 8, 9].map CoalesceEvent.arrive ++
      [CoalesceEvent.settle ⟨true, false, none, false⟩])).delivered =
      [7, 8, 9].map (fun c => (c, (⟨true, false, none, false⟩ : VerificationResult))) ∧
    (coalesceRun ([7, 8, 9].map CoalesceEvent.arrive ++
      [CoalesceEvent.settle ⟨true, false, none, false⟩])).pending = none :=
  c9_coalescing_single_api_call [7, 8, 9] ⟨true, false, none, false⟩ (by decide)

end StarGate
